import Mathlib

/-!
Verification development for PyVE (`src/PyVE.py`), a PyQt5 dashboard that
polls a Proxmox node and lets the operator start/stop/reboot/shutdown a
selected guest.  The Python program is shallowly embedded: numbers that the
program handles as Python floats are modelled as rationals (`ℚ`), machine
integers as `ℕ`/`ℤ`, strings as `List Char`, exceptions as `Except`, and the
widget state mutated by the GUI methods as an explicit `Display` record
threaded through the functions.  Network calls are modelled by passing the
outcome each call would have (success value or raised exception) as an
explicit argument, so that a tick or an action dispatch becomes a pure
function of the pre-state and those outcomes.
-/

namespace PyVE

/-! ## Decimal rendering of a guest id

Python renders `vm.get('vmid')` into the row text with an f-string, i.e. as
the usual base-10 numeral.  `natToDecimal` is that numeral as a character
list. -/

/-- Decimal numeral of `n`, most significant digit first: the text an
f-string interpolation produces for a nonnegative integer. -/
def natToDecimal (n : ℕ) : List Char :=
  if n < 10 then [Nat.digitChar n]
  else natToDecimal (n / 10) ++ [Nat.digitChar (n % 10)]
decreasing_by exact Nat.div_lt_self (by omega) (by omega)

/-- One step of reading a decimal numeral, as `int()` does on a digit
string: shift the accumulator and add the digit value of the character. -/
def decimalStep (a : ℕ) (c : Char) : ℕ := a * 10 + (c.toNat - 48)

/-- Value of a digit string, as Python's `int(...)` computes it. -/
def decimalVal (l : List Char) : ℕ := l.foldl decimalStep 0

theorem digitChar_toNat {d : ℕ} (h : d < 10) : (Nat.digitChar d).toNat = 48 + d := by
  interval_cases d <;> rfl

theorem digitChar_isDigit {d : ℕ} (h : d < 10) : (Nat.digitChar d).isDigit = true := by
  interval_cases d <;> rfl

theorem foldl_natToDecimal (n : ℕ) :
    ∀ a, List.foldl decimalStep a (natToDecimal n) =
      a * 10 ^ (natToDecimal n).length + n := by
  induction n using Nat.strong_induction_on with
  | _ n ih =>
    intro a
    rw [natToDecimal]
    split
    · rename_i h
      simp [decimalStep, digitChar_toNat h]
    · rename_i h
      have hd : n / 10 < n := Nat.div_lt_self (by omega) (by omega)
      rw [List.foldl_append, ih (n / 10) hd a]
      simp only [List.length_append, List.length_cons, List.length_nil, List.foldl_cons,
        List.foldl_nil]
      rw [decimalStep, digitChar_toNat (Nat.mod_lt _ (by omega))]
      have h48 : 48 + n % 10 - 48 = n % 10 := by omega
      rw [h48, Nat.add_mul, Nat.mul_assoc, pow_succ]
      have hdm : n / 10 * 10 + n % 10 = n := by omega
      rw [Nat.add_assoc, hdm]

theorem decimalVal_natToDecimal (n : ℕ) : decimalVal (natToDecimal n) = n := by
  rw [decimalVal, foldl_natToDecimal]
  simp

theorem natToDecimal_ne_nil (n : ℕ) : natToDecimal n ≠ [] := by
  rw [natToDecimal]
  split <;> simp

theorem natToDecimal_isDigit (n : ℕ) : ∀ c ∈ natToDecimal n, c.isDigit = true := by
  induction n using Nat.strong_induction_on with
  | _ n ih =>
    rw [natToDecimal]
    split
    · rename_i h
      intro c hc
      rw [List.mem_singleton] at hc
      subst hc
      exact digitChar_isDigit h
    · rename_i h
      intro c hc
      rcases List.mem_append.mp hc with hc | hc
      · exact ih (n / 10) (Nat.div_lt_self (by omega) (by omega)) c hc
      · rw [List.mem_singleton] at hc
        subst hc
        exact digitChar_isDigit (Nat.mod_lt _ (by omega))

/-! ## The id-extraction regex

`_get_selected_vmid` runs `re.search(r'ID:\s*(\d+)', text)`.  `re.search`
tries each start position left to right; at a position the pattern matches
when the literal `ID:` is followed by any run of whitespace and then at
least one digit, the digit group being maximal (`\s` and `\d` are disjoint,
so the greedy `\s*` never needs to backtrack). -/

/-- Characters matched by Python's `\s` in ASCII-relevant range
(space, tab, newline, carriage return, vertical tab, form feed). -/
def isPySpace (c : Char) : Bool :=
  c = ' ' || c = '\t' || c = '\n' || c = '\r' || c = '\x0b' || c = '\x0c'

/-- Attempt of the pattern at the head of `s`: literal `ID:`, then `\s*`,
then the maximal nonempty digit run, returned as its numeric value. -/
def matchIdAt (s : List Char) : Option ℕ :=
  match s with
  | 'I' :: 'D' :: ':' :: rest =>
    let digs := (rest.dropWhile isPySpace).takeWhile Char.isDigit
    if digs = [] then none else some (decimalVal digs)
  | _ => none

/-- Leftmost match of `ID:\s*(\d+)` in the text, as `re.search` finds it,
returning `int(match.group(1))`; `none` when there is no match. -/
def searchId : List Char → Option ℕ
  | [] => none
  | c :: cs =>
    match matchIdAt (c :: cs) with
    | some n => some n
    | none => searchId cs

theorem isDigit_not_pySpace {c : Char} (h : c.isDigit = true) : isPySpace c = false := by
  rw [Char.isDigit] at h
  simp only [Bool.and_eq_true, decide_eq_true_eq] at h
  rw [isPySpace]
  simp only [Bool.or_eq_false_iff, decide_eq_false_iff_not]
  refine ⟨⟨⟨⟨⟨?_, ?_⟩, ?_⟩, ?_⟩, ?_⟩, ?_⟩ <;>
    · intro hc
      rw [hc] at h
      revert h
      decide

theorem takeWhile_all_append {p : Char → Bool} {x : Char} (l r : List Char)
    (hl : ∀ c ∈ l, p c = true) (hx : p x = false) :
    (l ++ x :: r).takeWhile p = l := by
  induction l with
  | nil => simp [hx]
  | cons a as ih =>
    have ha : p a = true := hl a (by simp)
    simp only [List.cons_append, List.takeWhile_cons, ha, if_true]
    rw [ih fun c hc => hl c (by simp [hc])]

/-! ## Data model

The pieces of remote state and widget state the claims are about. -/

/-- One `/nodes/{node}/status` response, with the fields `update_stats`
reads.  `cores`/`threads` are `none` when `cpuinfo` lacks them (the code
then shows `?`). -/
structure HostStatus where
  cpu : ℚ
  cores : Option ℕ
  threads : Option ℕ
  memUsed : ℕ
  memTotal : ℕ
  diskUsed : ℕ
  diskTotal : ℕ
  wait : ℚ

/-- One entry of a `qemu`/`lxc` listing: `vmid` (absent keys render as
`None` and sort as 0), `name` and `status` taken as opaque text. -/
structure Guest where
  vmid : Option ℕ
  name : List Char
  status : List Char

/-- Exceptions the program distinguishes: `ResourceException` from
proxmoxer, or any other `Exception`, each carrying its message text. -/
inductive PyErr where
  | resource (msg : List Char)
  | other (msg : List Char)
deriving DecidableEq

/-- The modal dialogs the program can show. -/
inductive Dialog where
  | selectWarning (itemType : List Char)
  | actionFailed (detail : List Char)
  | unexpectedError (detail : List Char)
deriving DecidableEq

/-- Row colors used in the guest lists (hex values from the source). -/
inductive Color where
  | green
  | red
  | black
  | white
deriving DecidableEq

/-- One `QListWidgetItem`: its text and optional background/foreground
brush (absent means widget default). -/
structure Row where
  text : List Char
  bg : Option Color
  fg : Option Color
deriving DecidableEq

/-- Text of the CPU label: `CPU (<cores> cores, <threads> threads)`,
or the startup `CPU (Fetching...)`, or the error text `CPU (N/A)`. -/
inductive CpuLabel where
  | info (cores threads : Option ℕ)
  | fetching
  | na
deriving DecidableEq

/-- Text of the RAM/Disk label: used/total GiB figures (shown with one
decimal), or the startup `Connecting...` text, or the `Error` text. -/
inductive MemLabel where
  | usedTotal (used total : ℚ)
  | connecting
  | error
deriving DecidableEq

/-- Text of the I/O delay label. -/
inductive IoLabel where
  | plain
  | connecting
  | error
deriving DecidableEq

/-- Format string of the I/O delay bar: the default `%p%` or the fixed
one-decimal percentage text set each tick. -/
inductive IoFormat where
  | percentDefault
  | fixedPercent (v : ℚ)
deriving DecidableEq

/-- The widget state a tick or an action can observe or change: the four
gauges (label text and bar value) and the two guest lists. -/
structure Display where
  cpuLabel : CpuLabel
  cpuBar : ℤ
  ramLabel : MemLabel
  ramBar : ℤ
  diskLabel : MemLabel
  diskBar : ℤ
  ioLabel : IoLabel
  ioFormat : IoFormat
  ioBar : ℤ
  vmRows : List Row
  ctRows : List Row
deriving DecidableEq

/-- Whole-application state: whether the global `proxmox` handle is set
(truthy), and the displayed widgets. -/
structure AppState where
  conn : Bool
  display : Display
deriving DecidableEq

/-! ## Startup connection retry (`initialize_proxmox_connection`) -/

/-- Result of the startup retry loop: the returned boolean, how many
connect attempts were made, and the argument of each `time.sleep` call in
order. -/
structure InitResult where
  success : Bool
  attempts : ℕ
  sleeps : List ℕ
deriving DecidableEq

/-- The `for attempt in range(max_retries)` loop.  `outcome a` tells
whether attempt number `a` (constructing `ProxmoxAPI` and validating with
`proxmox.version.get()`) succeeds; on failure the loop sleeps 2 seconds
unless this was the last attempt. -/
def init_attempts (outcome : ℕ → Bool) : ℕ → ℕ → List ℕ → InitResult
  | 0, attempt, sleeps => ⟨false, attempt, sleeps.reverse⟩
  | k + 1, attempt, sleeps =>
    if outcome attempt then ⟨true, attempt + 1, sleeps.reverse⟩
    else if 0 < k then init_attempts outcome k (attempt + 1) (2 :: sleeps)
    else init_attempts outcome k (attempt + 1) sleeps

/-- `initialize_proxmox_connection`: up to `max_retries = 3` attempts. -/
def initialize_proxmox_connection (outcome : ℕ → Bool) : InitResult :=
  init_attempts outcome 3 0 []

/-! ## Display construction and the poll tick (`update_stats`) -/

/-- `set_error_state`: the four labels get their error text; bars and
lists are untouched. -/
def set_error_state (d : Display) : Display :=
  { d with
    cpuLabel := CpuLabel.na
    ramLabel := MemLabel.error
    diskLabel := MemLabel.error
    ioLabel := IoLabel.error }

/-- The widgets as `init_pyve_tab`/`init_vm_tab`/`init_container_tab`
build them: bars at 0 with default format, labels in their
`Connecting...`/`Fetching...` form, lists empty; when the handle is absent
`set_error_state` is applied at the end of `init_pyve_tab`. -/
def init_display (conn : Bool) : Display :=
  let base : Display :=
    { cpuLabel := if conn then CpuLabel.fetching else CpuLabel.na
      cpuBar := 0
      ramLabel := if conn then MemLabel.connecting else MemLabel.error
      ramBar := 0
      diskLabel := if conn then MemLabel.connecting else MemLabel.error
      diskBar := 0
      ioLabel := if conn then IoLabel.connecting else IoLabel.error
      ioFormat := IoFormat.percentDefault
      ioBar := 0
      vmRows := []
      ctRows := [] }
  if conn then base else set_error_state base

/-- The placeholder row `addItem("Disconnected")` inserts (default
colors). -/
def disconnectedRow : Row :=
  { text := "Disconnected".toList, bg := none, fg := none }

/-- The disconnected branch of `update_stats`: error labels and each list
replaced by the single placeholder row. -/
def disconnectedDisplay (d : Display) : Display :=
  { set_error_state d with
    vmRows := [disconnectedRow]
    ctRows := [disconnectedRow] }

/-- Python `int()` on a rational: truncation toward zero. -/
def pyInt (q : ℚ) : ℤ := if q < 0 then ⌈q⌉ else ⌊q⌋

/-- Bytes-to-GiB divisor `1024**3` used for the RAM and disk labels. -/
def gibSize : ℚ := 1024 ^ 3

/-- `ram_percent = (ram_used / ram_total) * 100 if ram_total > 0 else 0`,
with `ram_used`/`ram_total` the GiB figures. -/
def ramPercent (st : HostStatus) : ℚ :=
  let u : ℚ := (st.memUsed : ℚ) / gibSize
  let t : ℚ := (st.memTotal : ℚ) / gibSize
  if 0 < t then u / t * 100 else 0

/-- Same computation for the `rootfs` figures. -/
def diskPercent (st : HostStatus) : ℚ :=
  let u : ℚ := (st.diskUsed : ℚ) / gibSize
  let t : ℚ := (st.diskTotal : ℚ) / gibSize
  if 0 < t then u / t * 100 else 0

/-- Lines 414-436 of `update_stats`: the four gauges written from a
fetched status (label texts, `setValue(int(...))` on each bar, and the
one-decimal format string on the I/O bar). -/
def applyHostStatus (st : HostStatus) (d : Display) : Display :=
  { d with
    cpuLabel := CpuLabel.info st.cores st.threads
    cpuBar := pyInt (st.cpu * 100)
    ramLabel := MemLabel.usedTotal ((st.memUsed : ℚ) / gibSize) ((st.memTotal : ℚ) / gibSize)
    ramBar := pyInt (ramPercent st)
    diskLabel := MemLabel.usedTotal ((st.diskUsed : ℚ) / gibSize) ((st.diskTotal : ℚ) / gibSize)
    diskBar := pyInt (diskPercent st)
    ioLabel := IoLabel.plain
    ioFormat := IoFormat.fixedPercent (st.wait * 100)
    ioBar := pyInt (st.wait * 100) }

/-- Row text `f"ID: {vmid} | {name} | {status}"`; an absent `vmid` prints
as `None`. -/
def guestRowText (g : Guest) : List Char :=
  'I' :: 'D' :: ':' :: ' ' ::
    ((match g.vmid with
      | some n => natToDecimal n
      | none => "None".toList) ++
      ' ' :: '|' :: ' ' :: (g.name ++ ' ' :: '|' :: ' ' :: g.status))

/-- One rendered guest row with the status color coding. -/
def renderGuestRow (g : Guest) : Row :=
  { text := guestRowText g
    bg :=
      if g.status = "running".toList then some Color.green
      else if g.status = "stopped".toList then some Color.red
      else none
    fg :=
      if g.status = "running".toList then some Color.black
      else if g.status = "stopped".toList then some Color.white
      else none }

/-- Sort key `lambda x: x.get('vmid', 0)`. -/
def guestKey (g : Guest) : ℕ := g.vmid.getD 0

/-- Comparison `sorted` uses on the key. -/
def guestLE (a b : Guest) : Prop := guestKey a ≤ guestKey b

instance : DecidableRel guestLE := fun a b =>
  inferInstanceAs (Decidable (guestKey a ≤ guestKey b))

instance : IsTotal Guest guestLE := ⟨fun a b => Nat.le_total (guestKey a) (guestKey b)⟩

instance : IsTrans Guest guestLE := ⟨fun _ _ _ => Nat.le_trans⟩

/-- `clear()` followed by one `addItem` per guest in
`sorted(gs, key=lambda x: x.get('vmid', 0))` order (a stable sort, as
Python's `sorted` is). -/
def renderGuestList (gs : List Guest) : List Row :=
  (List.insertionSort guestLE gs).map renderGuestRow

/-- What one tick would get from the network: the outcome of each of the
three fetches, in program order (`node.status.get()`, `node.qemu.get()`,
`node.lxc.get()`). -/
structure FetchOutcome where
  status : Except PyErr HostStatus
  vms : Except PyErr (List Guest)
  cts : Except PyErr (List Guest)

/-- Observable side effects of one tick besides the widgets: whether the
handler logged an error, how many fetches were issued before
returning/raising, how many `connect` calls were made (none: the tick
never reconnects), and any modal dialog (none: tick failures are only
logged). -/
structure TickLog where
  loggedError : Bool
  fetchCalls : ℕ
  connectCalls : ℕ
  dialog : Option Dialog
deriving DecidableEq

/-- `update_stats`.  With no handle it publishes the disconnected
snapshot and returns before any fetch.  Otherwise the three fetches run in
order inside one `try`; the first raising fetch aborts the tick with the
widgets written so far kept, and the handler only logs. -/
def update_stats (s : AppState) (f : FetchOutcome) : AppState × TickLog :=
  if s.conn = false then
    (⟨s.conn, disconnectedDisplay s.display⟩, ⟨false, 0, 0, none⟩)
  else
    match f.status with
    | Except.error _ => (s, ⟨true, 1, 0, none⟩)
    | Except.ok st =>
      match f.vms with
      | Except.error _ => (⟨s.conn, applyHostStatus st s.display⟩, ⟨true, 2, 0, none⟩)
      | Except.ok vs =>
        match f.cts with
        | Except.error _ =>
          (⟨s.conn, { applyHostStatus st s.display with vmRows := renderGuestList vs }⟩,
            ⟨true, 3, 0, none⟩)
        | Except.ok cs =>
          (⟨s.conn,
            { applyHostStatus st s.display with
              vmRows := renderGuestList vs
              ctRows := renderGuestList cs }⟩,
            ⟨false, 3, 0, none⟩)

/-- Post-state of a tick. -/
def tickState (s : AppState) (f : FetchOutcome) : AppState := (update_stats s f).1

/-- Displayed widgets after a tick. -/
def tickDisplay (s : AppState) (f : FetchOutcome) : Display := (tickState s f).display

/-- Side-effect record of a tick. -/
def tickLog (s : AppState) (f : FetchOutcome) : TickLog := (update_stats s f).2

/-! ## Action dispatch (`_get_selected_vmid`, `_perform_action`) -/

/-- The guest kinds an action can target (`resource_type`). -/
inductive ResKind where
  | vm
  | container
deriving DecidableEq

/-- The four lifecycle actions (the `actions` dict maps each name to
itself). -/
inductive ActionKind where
  | start
  | stop
  | reboot
  | shutdown
deriving DecidableEq

/-- One issued `POST .../status/<action>` call. -/
def ApiCall : Type := ResKind × ℕ × ActionKind

instance : DecidableEq ApiCall := inferInstanceAs (DecidableEq (ResKind × ℕ × ActionKind))

/-- `_get_selected_vmid`: with no selected row, warn and yield no id;
with a selected row, regex-extract the id from its text (no warning even
when the extraction fails). -/
def get_selected_vmid (sel : Option (List Char)) (itemType : List Char) :
    Option ℕ × Option Dialog :=
  match sel with
  | none => (none, some (Dialog.selectWarning itemType))
  | some t => (searchId t, none)

/-- Observable effects of `_perform_action`: API calls issued, delays of
the `QTimer.singleShot` re-polls scheduled, the modal error dialog if any,
and the number of `connect` calls (always none). -/
structure ActionEffects where
  apiCalls : List ApiCall
  repollDelays : List ℕ
  dialog : Option Dialog
  connectCalls : ℕ
deriving DecidableEq

/-- `_perform_action`.  Guard: `if vmid is None or not proxmox: return`.
Otherwise the action is posted; `callRes` is the outcome that post would
have.  Success schedules one re-poll after 2000 ms; `ResourceException`
or any other exception is caught and shown as a critical dialog carrying
the failure text. -/
def perform_action (s : AppState) (vmid : Option ℕ) (action : ActionKind) (res : ResKind)
    (callRes : Except PyErr Unit) : AppState × ActionEffects :=
  match vmid with
  | none => (s, ⟨[], [], none, 0⟩)
  | some i =>
    if s.conn = false then (s, ⟨[], [], none, 0⟩)
    else
      match callRes with
      | Except.ok _ => (s, ⟨[(res, i, action)], [2000], none, 0⟩)
      | Except.error (PyErr.resource d) =>
        (s, ⟨[(res, i, action)], [], some (Dialog.actionFailed d), 0⟩)
      | Except.error (PyErr.other d) =>
        (s, ⟨[(res, i, action)], [], some (Dialog.unexpectedError d), 0⟩)

/-- Effects of one button handler: the selection warning from
`_get_selected_vmid` plus the effects of `_perform_action`. -/
structure DispatchLog where
  warning : Option Dialog
  apiCalls : List ApiCall
  repollDelays : List ℕ
  dialog : Option Dialog
  connectCalls : ℕ
deriving DecidableEq

/-- A button handler (`start_vm`, `stop_container`, ...): resolve the id
from the selected row of the list, then `_perform_action`. -/
def dispatch_action (s : AppState) (sel : Option (List Char)) (itemType : List Char)
    (action : ActionKind) (res : ResKind) (callRes : Except PyErr Unit) :
    AppState × DispatchLog :=
  let g := get_selected_vmid sel itemType
  let p := perform_action s g.1 action res callRes
  (p.1, ⟨g.2, p.2.apiCalls, p.2.repollDelays, p.2.dialog, p.2.connectCalls⟩)

/-- `start_vm`. -/
def start_vm (s : AppState) (sel : Option (List Char)) (callRes : Except PyErr Unit) :=
  dispatch_action s sel "VM".toList ActionKind.start ResKind.vm callRes

/-- `stop_vm`. -/
def stop_vm (s : AppState) (sel : Option (List Char)) (callRes : Except PyErr Unit) :=
  dispatch_action s sel "VM".toList ActionKind.stop ResKind.vm callRes

/-- `reboot_vm`. -/
def reboot_vm (s : AppState) (sel : Option (List Char)) (callRes : Except PyErr Unit) :=
  dispatch_action s sel "VM".toList ActionKind.reboot ResKind.vm callRes

/-- `shutdown_vm`. -/
def shutdown_vm (s : AppState) (sel : Option (List Char)) (callRes : Except PyErr Unit) :=
  dispatch_action s sel "VM".toList ActionKind.shutdown ResKind.vm callRes

/-- `start_container`. -/
def start_container (s : AppState) (sel : Option (List Char)) (callRes : Except PyErr Unit) :=
  dispatch_action s sel "CT".toList ActionKind.start ResKind.container callRes

/-- `stop_container`. -/
def stop_container (s : AppState) (sel : Option (List Char)) (callRes : Except PyErr Unit) :=
  dispatch_action s sel "CT".toList ActionKind.stop ResKind.container callRes

/-- `reboot_container`. -/
def reboot_container (s : AppState) (sel : Option (List Char)) (callRes : Except PyErr Unit) :=
  dispatch_action s sel "CT".toList ActionKind.reboot ResKind.container callRes

/-- `shutdown_container`. -/
def shutdown_container (s : AppState) (sel : Option (List Char)) (callRes : Except PyErr Unit) :=
  dispatch_action s sel "CT".toList ActionKind.shutdown ResKind.container callRes

/-! ## Evaluations of the startup retry loop -/

theorem init_eval_first {outcome : ℕ → Bool} (h0 : outcome 0 = true) :
    initialize_proxmox_connection outcome = ⟨true, 1, []⟩ := by
  simp [initialize_proxmox_connection, init_attempts, h0]

theorem init_eval_second {outcome : ℕ → Bool} (h0 : outcome 0 = false)
    (h1 : outcome 1 = true) :
    initialize_proxmox_connection outcome = ⟨true, 2, [2]⟩ := by
  simp [initialize_proxmox_connection, init_attempts, h0, h1]

theorem init_eval_third {outcome : ℕ → Bool} (h0 : outcome 0 = false)
    (h1 : outcome 1 = false) (h2 : outcome 2 = true) :
    initialize_proxmox_connection outcome = ⟨true, 3, [2, 2]⟩ := by
  simp [initialize_proxmox_connection, init_attempts, h0, h1, h2]

theorem init_eval_fail {outcome : ℕ → Bool} (h0 : outcome 0 = false)
    (h1 : outcome 1 = false) (h2 : outcome 2 = false) :
    initialize_proxmox_connection outcome = ⟨false, 3, [2, 2]⟩ := by
  simp [initialize_proxmox_connection, init_attempts, h0, h1, h2]

/-- Claim C6: at startup, connect is attempted at most 3 times with a
fixed 2-second sleep between consecutive attempts (each attempt validating
the session with a version query, folded here into the attempt's outcome);
the loop reports success immediately after the first successful attempt,
making no further attempts, and reports failure exactly when all 3
attempts fail. -/
theorem claim6_init_bounded_retry (outcome : ℕ → Bool) :
    (initialize_proxmox_connection outcome).attempts ≤ 3 ∧
    (∀ j, j < 3 → outcome j = true → (∀ i, i < j → outcome i = false) →
      (initialize_proxmox_connection outcome).success = true ∧
      (initialize_proxmox_connection outcome).attempts = j + 1) ∧
    ((∀ i, i < 3 → outcome i = false) →
      (initialize_proxmox_connection outcome).success = false ∧
      (initialize_proxmox_connection outcome).attempts = 3) ∧
    (initialize_proxmox_connection outcome).sleeps =
      List.replicate ((initialize_proxmox_connection outcome).attempts - 1) 2 := by
  by_cases h0 : outcome 0 = true
  · rw [init_eval_first h0]
    refine ⟨by norm_num, ?_, ?_, by simp⟩
    · intro j hj ht hprev
      rcases Nat.eq_zero_or_pos j with hz | hpos
      · simp [hz]
      · exact absurd (hprev 0 hpos) (by simp [h0])
    · intro hall
      exact absurd (hall 0 (by omega)) (by simp [h0])
  · rw [Bool.not_eq_true] at h0
    by_cases h1 : outcome 1 = true
    · rw [init_eval_second h0 h1]
      refine ⟨by norm_num, ?_, ?_, by simp⟩
      · intro j hj ht hprev
        interval_cases j
        · rw [h0] at ht
          exact absurd ht (by simp)
        · simp
        · exact absurd (hprev 1 (by omega)) (by simp [h1])
      · intro hall
        exact absurd (hall 1 (by omega)) (by simp [h1])
    · rw [Bool.not_eq_true] at h1
      by_cases h2 : outcome 2 = true
      · rw [init_eval_third h0 h1 h2]
        refine ⟨by norm_num, ?_, ?_, by simp⟩
        · intro j hj ht hprev
          interval_cases j
          · rw [h0] at ht
            exact absurd ht (by simp)
          · rw [h1] at ht
            exact absurd ht (by simp)
          · simp
        · intro hall
          exact absurd (hall 2 (by omega)) (by simp [h2])
      · rw [Bool.not_eq_true] at h2
        rw [init_eval_fail h0 h1 h2]
        refine ⟨by norm_num, ?_, ?_, by simp⟩
        · intro j hj ht hprev
          interval_cases j
          · rw [h0] at ht
            exact absurd ht (by simp)
          · rw [h1] at ht
            exact absurd ht (by simp)
          · rw [h2] at ht
            exact absurd ht (by simp)
        · intro _
          exact ⟨rfl, rfl⟩

/-- Witness for C6 at a concrete outcome sequence: the first attempt
fails, the second succeeds; two attempts are made, one 2-second sleep. -/
theorem claim6_witness :
    (initialize_proxmox_connection (fun n => n == 1)).attempts ≤ 3 ∧
    (initialize_proxmox_connection (fun n => n == 1)).success = true ∧
    (initialize_proxmox_connection (fun n => n == 1)).attempts = 2 ∧
    (initialize_proxmox_connection (fun n => n == 1)).sleeps = [2] := by
  obtain ⟨hb, hfirst, -, hsleep⟩ := claim6_init_bounded_retry (fun n => n == 1)
  obtain ⟨hs, ha⟩ := hfirst 1 (by omega) (by decide) (by decide)
  refine ⟨hb, hs, ha, ?_⟩
  rw [hsleep, ha]
  rfl

/-! ## The render-then-parse round trip -/

theorem isDigit_not_pySpace' {c : Char} (h : c.isDigit = true) : isPySpace c = false :=
  isDigit_not_pySpace h

theorem matchIdAt_row (i : ℕ) (tail : List Char) :
    matchIdAt ('I' :: 'D' :: ':' :: ' ' ::
      (natToDecimal i ++ ' ' :: '|' :: ' ' :: tail)) = some i := by
  have hdig := natToDecimal_isDigit i
  obtain ⟨d, ds, hd⟩ := List.exists_cons_of_ne_nil (natToDecimal_ne_nil i)
  have hdmem : d ∈ natToDecimal i := by
    rw [hd]
    exact List.mem_cons_self d ds
  have hdrop : (natToDecimal i ++ ' ' :: '|' :: ' ' :: tail).dropWhile isPySpace =
      natToDecimal i ++ ' ' :: '|' :: ' ' :: tail := by
    rw [hd, List.cons_append, List.dropWhile_cons,
      if_neg (by rw [isDigit_not_pySpace (hdig d hdmem)]; simp)]
  have htake : (natToDecimal i ++ ' ' :: '|' :: ' ' :: tail).takeWhile Char.isDigit =
      natToDecimal i :=
    takeWhile_all_append _ _ hdig (by decide)
  rw [matchIdAt]
  simp only [List.dropWhile_cons, show isPySpace ' ' = true from by decide, if_true]
  rw [hdrop, htake, if_neg (natToDecimal_ne_nil i), decimalVal_natToDecimal]

/-- Claim C8: for every guest whose id is present, rendering the row text
`ID: <id> | <name> | <status>` and then extracting the id with the
dispatcher's regex search returns exactly that id, whatever the name and
status texts are. -/
theorem claim8_render_parse_roundtrip (i : ℕ) (name status : List Char) :
    searchId (guestRowText ⟨some i, name, status⟩) = some i := by
  have htext : guestRowText ⟨some i, name, status⟩ =
      'I' :: 'D' :: ':' :: ' ' ::
        (natToDecimal i ++ ' ' :: '|' :: ' ' :: (name ++ ' ' :: '|' :: ' ' :: status)) := rfl
  rw [htext, searchId, matchIdAt_row]

/-! ## Action-dispatch claims -/

/-- Counterexample to claim C3 as stated: a selected row whose text holds
no recognizable identifier yields no id, and no API call is issued, but no
user-facing warning is shown either (the warning branch fires only for an
empty selection). -/
theorem claim3_counterexample :
    searchId "hello".toList = none ∧
    (dispatch_action ⟨true, init_display true⟩ (some "hello".toList) "VM".toList
      ActionKind.start ResKind.vm (Except.ok ())).2.warning = none ∧
    (dispatch_action ⟨true, init_display true⟩ (some "hello".toList) "VM".toList
      ActionKind.start ResKind.vm (Except.ok ())).2.apiCalls = [] := by
  refine ⟨by decide, ?_, ?_⟩ <;> rfl

/-- Claim C3 (amended): if no row is selected, a user-facing warning is
shown and no API call is issued; if a row is selected but its text holds
no recognizable identifier, no API call is issued and nothing is shown at
all (no warning, no dialog, no re-poll). -/
theorem claim3_no_selection_no_call (s : AppState) (sel : Option (List Char))
    (itemType : List Char) (action : ActionKind) (res : ResKind)
    (callRes : Except PyErr Unit) :
    (sel = none →
      (dispatch_action s sel itemType action res callRes).2.warning =
        some (Dialog.selectWarning itemType) ∧
      (dispatch_action s sel itemType action res callRes).2.apiCalls = []) ∧
    (∀ t, sel = some t → searchId t = none →
      (dispatch_action s sel itemType action res callRes).2.apiCalls = [] ∧
      (dispatch_action s sel itemType action res callRes).2.warning = none ∧
      (dispatch_action s sel itemType action res callRes).2.dialog = none ∧
      (dispatch_action s sel itemType action res callRes).2.repollDelays = []) := by
  constructor
  · intro h
    subst h
    exact ⟨rfl, rfl⟩
  · intro t ht hid
    subst ht
    simp [dispatch_action, get_selected_vmid, perform_action, hid]

/-- Witness for C3 (amended) at concrete inputs: an empty selection warns
and calls nothing; a selected unparsable row calls and shows nothing. -/
theorem claim3_witness :
    ((dispatch_action ⟨true, init_display true⟩ none "VM".toList ActionKind.start
        ResKind.vm (Except.ok ())).2.warning = some (Dialog.selectWarning "VM".toList) ∧
      (dispatch_action ⟨true, init_display true⟩ none "VM".toList ActionKind.start
        ResKind.vm (Except.ok ())).2.apiCalls = []) ∧
    ((dispatch_action ⟨true, init_display true⟩ (some "hello".toList) "VM".toList
        ActionKind.start ResKind.vm (Except.ok ())).2.apiCalls = [] ∧
      (dispatch_action ⟨true, init_display true⟩ (some "hello".toList) "VM".toList
        ActionKind.start ResKind.vm (Except.ok ())).2.warning = none ∧
      (dispatch_action ⟨true, init_display true⟩ (some "hello".toList) "VM".toList
        ActionKind.start ResKind.vm (Except.ok ())).2.dialog = none ∧
      (dispatch_action ⟨true, init_display true⟩ (some "hello".toList) "VM".toList
        ActionKind.start ResKind.vm (Except.ok ())).2.repollDelays = []) :=
  ⟨(claim3_no_selection_no_call ⟨true, init_display true⟩ none "VM".toList ActionKind.start
      ResKind.vm (Except.ok ())).1 rfl,
    (claim3_no_selection_no_call ⟨true, init_display true⟩ (some "hello".toList) "VM".toList
      ActionKind.start ResKind.vm (Except.ok ())).2 "hello".toList rfl (by decide)⟩

/-- Claim C4: a dispatched action with a resolved id and a present handle
issues exactly the one API call; on success exactly one re-poll is
scheduled with a 2000 ms delay and no dialog is shown; on a
`ResourceException` or any other exception no re-poll is scheduled and a
blocking error dialog carrying the failure detail is shown (both handlers
catch, so the process does not crash: `perform_action` is total and
propagates nothing). -/
theorem claim4_action_repoll_or_dialog (s : AppState) (i : ℕ) (action : ActionKind)
    (res : ResKind) (callRes : Except PyErr Unit) (hc : s.conn = true) :
    (callRes = Except.ok () →
      (perform_action s (some i) action res callRes).2.apiCalls = [(res, i, action)] ∧
      (perform_action s (some i) action res callRes).2.repollDelays = [2000] ∧
      (perform_action s (some i) action res callRes).2.dialog = none) ∧
    (∀ d, callRes = Except.error (PyErr.resource d) →
      (perform_action s (some i) action res callRes).2.repollDelays = [] ∧
      (perform_action s (some i) action res callRes).2.dialog =
        some (Dialog.actionFailed d)) ∧
    (∀ d, callRes = Except.error (PyErr.other d) →
      (perform_action s (some i) action res callRes).2.repollDelays = [] ∧
      (perform_action s (some i) action res callRes).2.dialog =
        some (Dialog.unexpectedError d)) := by
  refine ⟨?_, ?_, ?_⟩
  · intro h
    subst h
    simp [perform_action, hc]
  · intro d h
    subst h
    simp [perform_action, hc]
  · intro d h
    subst h
    simp [perform_action, hc]

/-- Witness for C4 at concrete inputs: a successful start of VM 101
schedules the single 2000 ms re-poll with no dialog; a failing stop shows
the dialog with the detail and schedules nothing. -/
theorem claim4_witness :
    ((perform_action ⟨true, init_display true⟩ (some 101) ActionKind.start ResKind.vm
        (Except.ok ())).2.apiCalls = [(ResKind.vm, 101, ActionKind.start)] ∧
      (perform_action ⟨true, init_display true⟩ (some 101) ActionKind.start ResKind.vm
        (Except.ok ())).2.repollDelays = [2000] ∧
      (perform_action ⟨true, init_display true⟩ (some 101) ActionKind.start ResKind.vm
        (Except.ok ())).2.dialog = none) ∧
    ((perform_action ⟨true, init_display true⟩ (some 101) ActionKind.stop ResKind.vm
        (Except.error (PyErr.resource "timeout".toList))).2.repollDelays = [] ∧
      (perform_action ⟨true, init_display true⟩ (some 101) ActionKind.stop ResKind.vm
        (Except.error (PyErr.resource "timeout".toList))).2.dialog =
        some (Dialog.actionFailed "timeout".toList)) :=
  ⟨(claim4_action_repoll_or_dialog ⟨true, init_display true⟩ 101 ActionKind.start ResKind.vm
      (Except.ok ()) rfl).1 rfl,
    ((claim4_action_repoll_or_dialog ⟨true, init_display true⟩ 101 ActionKind.stop ResKind.vm
      (Except.error (PyErr.resource "timeout".toList)) rfl).2.1 "timeout".toList rfl)⟩

/-- Claim C10: while the connection handle is absent, a dispatched action
with a resolved guest id returns without issuing an API call, without any
dialog (no warning, no error dialog), without scheduling a re-poll, and
without touching the state: the guard makes those branches unreachable. -/
theorem claim10_disconnected_guard (s : AppState) (sel : Option (List Char)) (t : List Char)
    (i : ℕ) (itemType : List Char) (action : ActionKind) (res : ResKind)
    (callRes : Except PyErr Unit) (hc : s.conn = false) (hsel : sel = some t)
    (hid : searchId t = some i) :
    (dispatch_action s sel itemType action res callRes).2.apiCalls = [] ∧
    (dispatch_action s sel itemType action res callRes).2.warning = none ∧
    (dispatch_action s sel itemType action res callRes).2.dialog = none ∧
    (dispatch_action s sel itemType action res callRes).2.repollDelays = [] ∧
    (dispatch_action s sel itemType action res callRes).1 = s := by
  subst hsel
  simp [dispatch_action, get_selected_vmid, perform_action, hid, hc]

/-- Witness for C10: disconnected state, a row with the recognizable id 7
selected, a start action: nothing is issued or shown. -/
theorem claim10_witness :
    (dispatch_action ⟨false, init_display false⟩ (some "ID: 7".toList) "VM".toList
      ActionKind.start ResKind.vm (Except.ok ())).2.apiCalls = [] ∧
    (dispatch_action ⟨false, init_display false⟩ (some "ID: 7".toList) "VM".toList
      ActionKind.start ResKind.vm (Except.ok ())).2.warning = none ∧
    (dispatch_action ⟨false, init_display false⟩ (some "ID: 7".toList) "VM".toList
      ActionKind.start ResKind.vm (Except.ok ())).2.dialog = none ∧
    (dispatch_action ⟨false, init_display false⟩ (some "ID: 7".toList) "VM".toList
      ActionKind.start ResKind.vm (Except.ok ())).2.repollDelays = [] ∧
    (dispatch_action ⟨false, init_display false⟩ (some "ID: 7".toList) "VM".toList
      ActionKind.start ResKind.vm (Except.ok ())).1 = ⟨false, init_display false⟩ :=
  claim10_disconnected_guard ⟨false, init_display false⟩ (some "ID: 7".toList)
    "ID: 7".toList 7 "VM".toList ActionKind.start ResKind.vm (Except.ok ()) rfl rfl
    (by decide)

/-- Claim C9: the connection handle is assigned only by the startup retry
sequence; a poll tick and an action dispatch return it unchanged and issue
no connect call, whatever the fetch or call outcomes are. -/
theorem claim9_conn_frame (s : AppState) (f : FetchOutcome) (sel : Option (List Char))
    (itemType : List Char) (action : ActionKind) (res : ResKind)
    (callRes : Except PyErr Unit) :
    (tickState s f).conn = s.conn ∧
    (tickLog s f).connectCalls = 0 ∧
    (dispatch_action s sel itemType action res callRes).1.conn = s.conn ∧
    (dispatch_action s sel itemType action res callRes).2.connectCalls = 0 := by
  have htick : (tickState s f).conn = s.conn ∧ (tickLog s f).connectCalls = 0 := by
    unfold tickState tickLog update_stats
    by_cases hc : s.conn = false
    · simp [hc]
    · rcases f with ⟨fst, fv, fc⟩
      cases fst <;> cases fv <;> cases fc <;> simp [hc]
  have hdisp : (dispatch_action s sel itemType action res callRes).1.conn = s.conn ∧
      (dispatch_action s sel itemType action res callRes).2.connectCalls = 0 := by
    cases sel with
    | none => exact ⟨rfl, rfl⟩
    | some t =>
      rw [dispatch_action, get_selected_vmid]
      cases hid : searchId t with
      | none => exact ⟨rfl, rfl⟩
      | some i =>
        simp only [perform_action]
        by_cases hc : s.conn = false
        · simp [hc]
        · cases callRes with
          | ok u => simp [hc]
          | error e => cases e <;> simp [hc]
  exact ⟨htick.1, htick.2, hdisp.1, hdisp.2⟩

/-! ## Poll-tick claims -/

theorem pyInt_of_nonneg {q : ℚ} (h : 0 ≤ q) : pyInt q = ⌊q⌋ := by
  rw [pyInt, if_neg (not_lt.mpr h)]

theorem floor_pct_bounds {q : ℚ} (h0 : 0 ≤ q) (h1 : q ≤ 1) :
    0 ≤ ⌊q * 100⌋ ∧ ⌊q * 100⌋ ≤ 100 := by
  constructor
  · exact Int.floor_nonneg.mpr (by positivity)
  · have h : q * 100 ≤ ((100 : ℤ) : ℚ) := by push_cast; nlinarith
    have := Int.floor_le_floor h
    rwa [Int.floor_intCast] at this

theorem fraction_bounds {u t : ℕ} (ht : 0 < t) (hle : u ≤ t) :
    0 ≤ (u : ℚ) / (t : ℚ) ∧ (u : ℚ) / (t : ℚ) ≤ 1 := by
  have ht' : (0 : ℚ) < (t : ℚ) := by exact_mod_cast ht
  constructor
  · positivity
  · rw [div_le_one ht']
    exact_mod_cast hle

theorem ramPercent_eq (st : HostStatus) (h : 0 < st.memTotal) :
    ramPercent st = (st.memUsed : ℚ) / (st.memTotal : ℚ) * 100 := by
  have hg : (0 : ℚ) < gibSize := by norm_num [gibSize]
  have hmt : (0 : ℚ) < (st.memTotal : ℚ) := by exact_mod_cast h
  have hg' : gibSize ≠ 0 := ne_of_gt hg
  have hmt' : (st.memTotal : ℚ) ≠ 0 := ne_of_gt hmt
  rw [ramPercent]
  simp only [if_pos (div_pos hmt hg)]
  field_simp

theorem diskPercent_eq (st : HostStatus) (h : 0 < st.diskTotal) :
    diskPercent st = (st.diskUsed : ℚ) / (st.diskTotal : ℚ) * 100 := by
  have hg : (0 : ℚ) < gibSize := by norm_num [gibSize]
  have hdt : (0 : ℚ) < (st.diskTotal : ℚ) := by exact_mod_cast h
  have hg' : gibSize ≠ 0 := ne_of_gt hg
  have hdt' : (st.diskTotal : ℚ) ≠ 0 := ne_of_gt hdt
  rw [diskPercent]
  simp only [if_pos (div_pos hdt hg)]
  field_simp

theorem tick_gauges (s : AppState) (f : FetchOutcome) (st : HostStatus)
    (hc : s.conn = true) (hst : f.status = Except.ok st) :
    (tickDisplay s f).cpuBar = pyInt (st.cpu * 100) ∧
    (tickDisplay s f).ramBar = pyInt (ramPercent st) ∧
    (tickDisplay s f).diskBar = pyInt (diskPercent st) ∧
    (tickDisplay s f).ioBar = pyInt (st.wait * 100) := by
  unfold tickDisplay tickState update_stats
  rw [hst]
  rcases f with ⟨fst, fv, fc⟩
  cases fv <;> cases fc <;> simp [hc, applyHostStatus]

/-- Counterexample to claim C1 as stated: at `cpuFraction = 3/500` the
code displays `int(0.6) = 0`, while `round(0.6) = 1`: the displayed CPU
percentage is not `round(field * 100)`. -/
theorem claim1_counterexample :
    (tickDisplay ⟨true, init_display true⟩
        ⟨Except.ok ⟨3/500, some 4, some 8, 0, 1073741824, 0, 1073741824, 0⟩,
          Except.ok [], Except.ok []⟩).cpuBar ≠
      round (((3 : ℚ)/500) * 100) := by
  obtain ⟨hcpu, -, -, -⟩ := tick_gauges ⟨true, init_display true⟩
    ⟨Except.ok ⟨3/500, some 4, some 8, 0, 1073741824, 0, 1073741824, 0⟩,
      Except.ok [], Except.ok []⟩
    ⟨3/500, some 4, some 8, 0, 1073741824, 0, 1073741824, 0⟩ rfl rfl
  rw [hcpu, pyInt_of_nonneg (by norm_num)]
  have hfloor : ⌊((3 : ℚ)/500) * 100⌋ = 0 := by norm_num
  have hround : round (((3 : ℚ)/500) * 100) = 1 := by
    rw [round_eq]
    norm_num
  rw [hfloor, hround]
  decide

/-- Claim C1 (amended): for every valid HostStatus snapshot, each of the
four gauge percentages a poll tick displays equals the truncation
`int(field * 100)`, i.e. `⌊field * 100⌋` (not the rounding, which the code
never applies), and lies in [0, 100]. -/
theorem claim1_gauges_truncated (s : AppState) (f : FetchOutcome) (st : HostStatus)
    (hc : s.conn = true) (hst : f.status = Except.ok st)
    (hcpu0 : 0 ≤ st.cpu) (hcpu1 : st.cpu ≤ 1)
    (hw0 : 0 ≤ st.wait) (hw1 : st.wait ≤ 1)
    (hm : 0 < st.memTotal) (hmle : st.memUsed ≤ st.memTotal)
    (hd : 0 < st.diskTotal) (hdle : st.diskUsed ≤ st.diskTotal) :
    ((tickDisplay s f).cpuBar = ⌊st.cpu * 100⌋ ∧
      0 ≤ (tickDisplay s f).cpuBar ∧ (tickDisplay s f).cpuBar ≤ 100) ∧
    ((tickDisplay s f).ramBar = ⌊(st.memUsed : ℚ) / (st.memTotal : ℚ) * 100⌋ ∧
      0 ≤ (tickDisplay s f).ramBar ∧ (tickDisplay s f).ramBar ≤ 100) ∧
    ((tickDisplay s f).diskBar = ⌊(st.diskUsed : ℚ) / (st.diskTotal : ℚ) * 100⌋ ∧
      0 ≤ (tickDisplay s f).diskBar ∧ (tickDisplay s f).diskBar ≤ 100) ∧
    ((tickDisplay s f).ioBar = ⌊st.wait * 100⌋ ∧
      0 ≤ (tickDisplay s f).ioBar ∧ (tickDisplay s f).ioBar ≤ 100) := by
  obtain ⟨hcpu, hram, hdisk, hio⟩ := tick_gauges s f st hc hst
  obtain ⟨hmf0, hmf1⟩ := fraction_bounds hm hmle
  obtain ⟨hdf0, hdf1⟩ := fraction_bounds hd hdle
  have hcb := floor_pct_bounds hcpu0 hcpu1
  have hrb := floor_pct_bounds hmf0 hmf1
  have hdb := floor_pct_bounds hdf0 hdf1
  have hib := floor_pct_bounds hw0 hw1
  have hce : (tickDisplay s f).cpuBar = ⌊st.cpu * 100⌋ := by
    rw [hcpu, pyInt_of_nonneg (by positivity)]
  have hre : (tickDisplay s f).ramBar = ⌊(st.memUsed : ℚ) / (st.memTotal : ℚ) * 100⌋ := by
    rw [hram, ramPercent_eq st hm, pyInt_of_nonneg (by positivity)]
  have hde : (tickDisplay s f).diskBar = ⌊(st.diskUsed : ℚ) / (st.diskTotal : ℚ) * 100⌋ := by
    rw [hdisk, diskPercent_eq st hd, pyInt_of_nonneg (by positivity)]
  have hie : (tickDisplay s f).ioBar = ⌊st.wait * 100⌋ := by
    rw [hio, pyInt_of_nonneg (by positivity)]
  refine ⟨⟨hce, ?_, ?_⟩, ⟨hre, ?_, ?_⟩, ⟨hde, ?_, ?_⟩, ⟨hie, ?_, ?_⟩⟩ <;>
    first
      | (rw [hce]; exact hcb.1)
      | (rw [hce]; exact hcb.2)
      | (rw [hre]; exact hrb.1)
      | (rw [hre]; exact hrb.2)
      | (rw [hde]; exact hdb.1)
      | (rw [hde]; exact hdb.2)
      | (rw [hie]; exact hib.1)
      | (rw [hie]; exact hib.2)

/-- Witness for C1 (amended) at a concrete valid snapshot
(cpu 37%, 1 of 2 bytes of RAM, 3 of 4 bytes of disk, wait 1/10). -/
theorem claim1_witness :
    ((tickDisplay ⟨true, init_display true⟩
        ⟨Except.ok ⟨37/100, some 8, some 16, 1, 2, 3, 4, 1/10⟩,
          Except.ok [], Except.ok []⟩).cpuBar = ⌊((37 : ℚ)/100) * 100⌋ ∧
      0 ≤ (tickDisplay ⟨true, init_display true⟩
        ⟨Except.ok ⟨37/100, some 8, some 16, 1, 2, 3, 4, 1/10⟩,
          Except.ok [], Except.ok []⟩).cpuBar ∧
      (tickDisplay ⟨true, init_display true⟩
        ⟨Except.ok ⟨37/100, some 8, some 16, 1, 2, 3, 4, 1/10⟩,
          Except.ok [], Except.ok []⟩).cpuBar ≤ 100) ∧
    ((tickDisplay ⟨true, init_display true⟩
        ⟨Except.ok ⟨37/100, some 8, some 16, 1, 2, 3, 4, 1/10⟩,
          Except.ok [], Except.ok []⟩).ramBar = ⌊((1 : ℕ) : ℚ) / ((2 : ℕ) : ℚ) * 100⌋ ∧
      0 ≤ (tickDisplay ⟨true, init_display true⟩
        ⟨Except.ok ⟨37/100, some 8, some 16, 1, 2, 3, 4, 1/10⟩,
          Except.ok [], Except.ok []⟩).ramBar ∧
      (tickDisplay ⟨true, init_display true⟩
        ⟨Except.ok ⟨37/100, some 8, some 16, 1, 2, 3, 4, 1/10⟩,
          Except.ok [], Except.ok []⟩).ramBar ≤ 100) ∧
    ((tickDisplay ⟨true, init_display true⟩
        ⟨Except.ok ⟨37/100, some 8, some 16, 1, 2, 3, 4, 1/10⟩,
          Except.ok [], Except.ok []⟩).diskBar = ⌊((3 : ℕ) : ℚ) / ((4 : ℕ) : ℚ) * 100⌋ ∧
      0 ≤ (tickDisplay ⟨true, init_display true⟩
        ⟨Except.ok ⟨37/100, some 8, some 16, 1, 2, 3, 4, 1/10⟩,
          Except.ok [], Except.ok []⟩).diskBar ∧
      (tickDisplay ⟨true, init_display true⟩
        ⟨Except.ok ⟨37/100, some 8, some 16, 1, 2, 3, 4, 1/10⟩,
          Except.ok [], Except.ok []⟩).diskBar ≤ 100) ∧
    ((tickDisplay ⟨true, init_display true⟩
        ⟨Except.ok ⟨37/100, some 8, some 16, 1, 2, 3, 4, 1/10⟩,
          Except.ok [], Except.ok []⟩).ioBar = ⌊((1 : ℚ)/10) * 100⌋ ∧
      0 ≤ (tickDisplay ⟨true, init_display true⟩
        ⟨Except.ok ⟨37/100, some 8, some 16, 1, 2, 3, 4, 1/10⟩,
          Except.ok [], Except.ok []⟩).ioBar ∧
      (tickDisplay ⟨true, init_display true⟩
        ⟨Except.ok ⟨37/100, some 8, some 16, 1, 2, 3, 4, 1/10⟩,
          Except.ok [], Except.ok []⟩).ioBar ≤ 100) :=
  claim1_gauges_truncated ⟨true, init_display true⟩
    ⟨Except.ok ⟨37/100, some 8, some 16, 1, 2, 3, 4, 1/10⟩, Except.ok [], Except.ok []⟩
    ⟨37/100, some 8, some 16, 1, 2, 3, 4, 1/10⟩ rfl rfl (by norm_num) (by norm_num)
    (by norm_num) (by norm_num) (by norm_num) (by norm_num) (by norm_num) (by norm_num)

/-- Counterexample to claim C2 as stated: a tick whose VM-list fetch
raises still changes the displayed snapshot, because the host gauges were
already written from the (successful) status fetch before the failure: the
CPU bar moves from 0 to 50. -/
theorem claim2_counterexample :
    (∃ e, (⟨Except.ok ⟨1/2, some 4, some 8, 0, 1073741824, 0, 1073741824, 0⟩,
        Except.error (PyErr.resource "boom".toList), Except.ok []⟩ :
        FetchOutcome).vms = Except.error e) ∧
    tickDisplay ⟨true, init_display true⟩
      ⟨Except.ok ⟨1/2, some 4, some 8, 0, 1073741824, 0, 1073741824, 0⟩,
        Except.error (PyErr.resource "boom".toList), Except.ok []⟩ ≠
      (⟨true, init_display true⟩ : AppState).display := by
  refine ⟨⟨PyErr.resource "boom".toList, rfl⟩, ?_⟩
  intro h
  have hbar := congrArg Display.cpuBar h
  obtain ⟨hcpu, -, -, -⟩ := tick_gauges ⟨true, init_display true⟩
    ⟨Except.ok ⟨1/2, some 4, some 8, 0, 1073741824, 0, 1073741824, 0⟩,
      Except.error (PyErr.resource "boom".toList), Except.ok []⟩
    ⟨1/2, some 4, some 8, 0, 1073741824, 0, 1073741824, 0⟩ rfl rfl
  rw [hcpu, pyInt_of_nonneg (by norm_num)] at hbar
  have hrhs : (⟨true, init_display true⟩ : AppState).display.cpuBar = 0 := rfl
  rw [hrhs] at hbar
  norm_num at hbar

/-- Claim C2 (amended): a poll tick in which a fetch raises only logs the
error and shows no user-facing dialog; the tick aborts at the failing
fetch, so every display element not yet written keeps its previous value:
if the first fetch (host status) raises, the entire displayed snapshot is
unchanged; if the VM-list fetch raises, both guest lists are unchanged
(the gauges show the newly fetched status); if the container-list fetch
raises, the container list is unchanged. -/
theorem claim2_failed_tick_aborts (s : AppState) (f : FetchOutcome) (hc : s.conn = true) :
    ((∃ e, f.status = Except.error e) →
      tickState s f = s ∧
      (tickLog s f).loggedError = true ∧ (tickLog s f).dialog = none) ∧
    (∀ st, f.status = Except.ok st → (∃ e, f.vms = Except.error e) →
      tickDisplay s f = applyHostStatus st s.display ∧
      (tickDisplay s f).vmRows = s.display.vmRows ∧
      (tickDisplay s f).ctRows = s.display.ctRows ∧
      (tickLog s f).loggedError = true ∧ (tickLog s f).dialog = none) ∧
    (∀ st vs, f.status = Except.ok st → f.vms = Except.ok vs →
      (∃ e, f.cts = Except.error e) →
      tickDisplay s f = { applyHostStatus st s.display with vmRows := renderGuestList vs } ∧
      (tickDisplay s f).ctRows = s.display.ctRows ∧
      (tickLog s f).loggedError = true ∧ (tickLog s f).dialog = none) := by
  rcases f with ⟨fst, fv, fc⟩
  refine ⟨?_, ?_, ?_⟩
  · rintro ⟨e, he⟩
    subst he
    unfold tickState tickLog update_stats
    simp [hc]
  · rintro st hst ⟨e, he⟩
    subst hst
    subst he
    unfold tickDisplay tickState tickLog update_stats
    simp [hc, applyHostStatus]
  · rintro st vs hst hv ⟨e, he⟩
    subst hst
    subst hv
    subst he
    unfold tickDisplay tickState tickLog update_stats
    simp [hc, applyHostStatus]

/-- Witness for C2 (amended) at a concrete tick whose first fetch raises:
state unchanged, only a log entry, no dialog. -/
theorem claim2_witness :
    tickState ⟨true, init_display true⟩
      ⟨Except.error (PyErr.other "conn reset".toList), Except.ok [], Except.ok []⟩ =
      ⟨true, init_display true⟩ ∧
    (tickLog ⟨true, init_display true⟩
      ⟨Except.error (PyErr.other "conn reset".toList), Except.ok [], Except.ok []⟩).loggedError
      = true ∧
    (tickLog ⟨true, init_display true⟩
      ⟨Except.error (PyErr.other "conn reset".toList), Except.ok [], Except.ok []⟩).dialog
      = none :=
  (claim2_failed_tick_aborts ⟨true, init_display true⟩
    ⟨Except.error (PyErr.other "conn reset".toList), Except.ok [], Except.ok []⟩ rfl).1
    ⟨PyErr.other "conn reset".toList, rfl⟩

/-- Claim C5: a tick with successful fetches replaces each guest list
wholesale by one row per returned guest (the rendered image of a stable
sort of the returned list), in order non-decreasing by the id sort key,
whatever the input order and whatever was displayed before. -/
theorem claim5_lists_sorted (s : AppState) (f : FetchOutcome) (st : HostStatus)
    (vs cs : List Guest) (hc : s.conn = true) (hst : f.status = Except.ok st)
    (hv : f.vms = Except.ok vs) (hct : f.cts = Except.ok cs) :
    (tickDisplay s f).vmRows = (List.insertionSort guestLE vs).map renderGuestRow ∧
    (List.insertionSort guestLE vs).Perm vs ∧
    List.Sorted guestLE (List.insertionSort guestLE vs) ∧
    (tickDisplay s f).vmRows.length = vs.length ∧
    (tickDisplay s f).ctRows = (List.insertionSort guestLE cs).map renderGuestRow ∧
    (List.insertionSort guestLE cs).Perm cs ∧
    List.Sorted guestLE (List.insertionSort guestLE cs) ∧
    (tickDisplay s f).ctRows.length = cs.length := by
  have hrows : (tickDisplay s f).vmRows = renderGuestList vs ∧
      (tickDisplay s f).ctRows = renderGuestList cs := by
    unfold tickDisplay tickState update_stats
    rw [hst, hv, hct]
    simp [hc]
  refine ⟨?_, List.perm_insertionSort guestLE vs, List.sorted_insertionSort guestLE vs, ?_,
    ?_, List.perm_insertionSort guestLE cs, List.sorted_insertionSort guestLE cs, ?_⟩
  · rw [hrows.1, renderGuestList]
  · rw [hrows.1, renderGuestList, List.length_map,
      (List.perm_insertionSort guestLE vs).length_eq]
  · rw [hrows.2, renderGuestList]
  · rw [hrows.2, renderGuestList, List.length_map,
      (List.perm_insertionSort guestLE cs).length_eq]

/-- Witness for C5 at the spec's scenario: VMs returned as id 101 then id
55; the rendered list is the sorted image (55 before 101), one row per
guest. -/
theorem claim5_witness :
    (tickDisplay ⟨true, init_display true⟩
        ⟨Except.ok ⟨0, some 4, some 8, 0, 1073741824, 0, 1073741824, 0⟩,
          Except.ok [⟨some 101, "web".toList, "running".toList⟩,
            ⟨some 55, "db".toList, "stopped".toList⟩],
          Except.ok []⟩).vmRows =
      (List.insertionSort guestLE [⟨some 101, "web".toList, "running".toList⟩,
        ⟨some 55, "db".toList, "stopped".toList⟩]).map renderGuestRow ∧
    (List.insertionSort guestLE [⟨some 101, "web".toList, "running".toList⟩,
      ⟨some 55, "db".toList, "stopped".toList⟩]).Perm
      [⟨some 101, "web".toList, "running".toList⟩,
        ⟨some 55, "db".toList, "stopped".toList⟩] ∧
    List.Sorted guestLE (List.insertionSort guestLE
      [⟨some 101, "web".toList, "running".toList⟩,
        ⟨some 55, "db".toList, "stopped".toList⟩]) ∧
    (tickDisplay ⟨true, init_display true⟩
        ⟨Except.ok ⟨0, some 4, some 8, 0, 1073741824, 0, 1073741824, 0⟩,
          Except.ok [⟨some 101, "web".toList, "running".toList⟩,
            ⟨some 55, "db".toList, "stopped".toList⟩],
          Except.ok []⟩).vmRows.length = 2 := by
  obtain ⟨h1, h2, h3, h4, -, -, -, -⟩ := claim5_lists_sorted ⟨true, init_display true⟩
    ⟨Except.ok ⟨0, some 4, some 8, 0, 1073741824, 0, 1073741824, 0⟩,
      Except.ok [⟨some 101, "web".toList, "running".toList⟩,
        ⟨some 55, "db".toList, "stopped".toList⟩],
      Except.ok []⟩
    ⟨0, some 4, some 8, 0, 1073741824, 0, 1073741824, 0⟩
    [⟨some 101, "web".toList, "running".toList⟩, ⟨some 55, "db".toList, "stopped".toList⟩]
    [] rfl rfl rfl rfl
  exact ⟨h1, h2, h3, h4⟩

/-- Claim C7: a tick with the handle absent sets the four host labels to
their error texts, replaces each guest list by the single `Disconnected`
placeholder row, and returns having issued no fetch. -/
theorem claim7_disconnected_tick (s : AppState) (f : FetchOutcome) (hc : s.conn = false) :
    (tickDisplay s f).cpuLabel = CpuLabel.na ∧
    (tickDisplay s f).ramLabel = MemLabel.error ∧
    (tickDisplay s f).diskLabel = MemLabel.error ∧
    (tickDisplay s f).ioLabel = IoLabel.error ∧
    (tickDisplay s f).vmRows = [disconnectedRow] ∧
    (tickDisplay s f).ctRows = [disconnectedRow] ∧
    (tickLog s f).fetchCalls = 0 := by
  unfold tickDisplay tickState tickLog update_stats
  simp [hc, disconnectedDisplay, set_error_state]

/-- Witness for C7 at a concrete disconnected state (any fetch outcomes:
they are never consulted). -/
theorem claim7_witness :
    (tickDisplay ⟨false, init_display false⟩
      ⟨Except.ok ⟨1/2, some 4, some 8, 0, 1, 0, 1, 0⟩, Except.ok [], Except.ok []⟩).cpuLabel
      = CpuLabel.na ∧
    (tickDisplay ⟨false, init_display false⟩
      ⟨Except.ok ⟨1/2, some 4, some 8, 0, 1, 0, 1, 0⟩, Except.ok [], Except.ok []⟩).ramLabel
      = MemLabel.error ∧
    (tickDisplay ⟨false, init_display false⟩
      ⟨Except.ok ⟨1/2, some 4, some 8, 0, 1, 0, 1, 0⟩, Except.ok [], Except.ok []⟩).diskLabel
      = MemLabel.error ∧
    (tickDisplay ⟨false, init_display false⟩
      ⟨Except.ok ⟨1/2, some 4, some 8, 0, 1, 0, 1, 0⟩, Except.ok [], Except.ok []⟩).ioLabel
      = IoLabel.error ∧
    (tickDisplay ⟨false, init_display false⟩
      ⟨Except.ok ⟨1/2, some 4, some 8, 0, 1, 0, 1, 0⟩, Except.ok [], Except.ok []⟩).vmRows
      = [disconnectedRow] ∧
    (tickDisplay ⟨false, init_display false⟩
      ⟨Except.ok ⟨1/2, some 4, some 8, 0, 1, 0, 1, 0⟩, Except.ok [], Except.ok []⟩).ctRows
      = [disconnectedRow] ∧
    (tickLog ⟨false, init_display false⟩
      ⟨Except.ok ⟨1/2, some 4, some 8, 0, 1, 0, 1, 0⟩, Except.ok [], Except.ok []⟩).fetchCalls
      = 0 :=
  claim7_disconnected_tick ⟨false, init_display false⟩
    ⟨Except.ok ⟨1/2, some 4, some 8, 0, 1, 0, 1, 0⟩, Except.ok [], Except.ok []⟩ rfl

end PyVE
